import Mathlib

/-!
Shallow embedding of the w3af mutation-and-classification probe engine
(plugins `crawl/wordnet.py`, `audit/global_redirect.py`, `infrastructure/hmap.py`,
`evasion/reversed_slashes.py`) together with proofs of the spec claims.

Machine strings are modelled as Lean `String` / `List Char`; Python's
`str.replace`, `str.split` and the two regular expressions used by the code are
translated into explicit executable functions whose semantics is argued next to
each definition.  Fallible Python code (uncaught `IndexError`, `AttributeError`)
is modelled with `Option` / `Except`.
-/

/-! ## Python string primitives -/

/-- Python `s.split(c)` for a single-character separator: keeps empty fields,
`"".split(c) = [""]`. -/
def splitOnChar (c : Char) : List Char → List (List Char)
  | [] => [[]]
  | x :: xs =>
    match splitOnChar c xs with
    | [] => [[x]]
    | h :: t => if x = c then [] :: h :: t else (x :: h) :: t

/-- Python `s.replace(old, new)` for a non-empty `old`: scan left to right,
replace non-overlapping occurrences.  A match at the head emits `new` and then
skips the remaining `old.length - 1` matched characters (tracked by the first
argument so that the recursion is structural on the scanned list). -/
def pyReplaceAux (old new : List Char) : Nat → List Char → List Char
  | _, [] => []
  | skip + 1, _ :: rest => pyReplaceAux old new skip rest
  | 0, c :: rest =>
    if old.isPrefixOf (c :: rest) then
      new ++ pyReplaceAux old new (old.length - 1) rest
    else
      c :: pyReplaceAux old new 0 rest

/-- Python `s.replace(old, new)`, including the `old = ""` case, where CPython
inserts `new` before every character and once more at the end
(`"abc".replace("", "X") = "XaXbXcX"`). -/
def pyReplace (s old new : List Char) : List Char :=
  if old = [] then new ++ s.flatMap (fun c => c :: new)
  else pyReplaceAux old new 0 s

/-- Python `str.isdigit()` restricted to ASCII (the values fed to it by the
plugin are URL path/query fragments): nonempty and all digits. -/
def pyIsDigit (w : String) : Bool :=
  w ≠ "" && w.data.all Char.isDigit

/-! ## `plugins/crawl/wordnet.py` — data model of the lexical provider

An NLTK `Synset` exposes `name`, `hypernyms()`, `hyponyms()`,
`member_holonyms()` and `lemmas`; the code only reads `.antonyms()` (and then
only `.name`) from a lemma, so a lemma is modelled by its antonym list. -/

inductive Synset : Type where
  | mk (name : String) (hypernyms hyponyms member_holonyms : List Synset)
       (lemmas : List (List Synset)) : Synset

def Synset.name : Synset → String
  | .mk n _ _ _ _ => n

def Synset.hypernyms : Synset → List Synset
  | .mk _ hyper _ _ _ => hyper

def Synset.hyponyms : Synset → List Synset
  | .mk _ _ hypo _ _ => hypo

def Synset.member_holonyms : Synset → List Synset
  | .mk _ _ _ mh _ => mh

def Synset.lemmas : Synset → List (List Synset)
  | .mk _ _ _ _ ls => ls

/-- `wn.synsets(word)[0].hypernyms()[0].hyponyms()` guarded by the
`try: ... except: pass` of `_search_wn` (lines 124-127): an `IndexError` from
either `[0]` is swallowed and contributes nothing. -/
def sibling_hyponyms (synsets : List Synset) : List Synset :=
  match synsets with
  | [] => []
  | s :: _ =>
    match s.hypernyms with
    | [] => []
    | h :: _ => h.hyponyms

/-- The body of the `for synset in synset_list` loop (lines 131-140):
the synset itself, its hypernyms, hyponyms, member holonyms and
`synset.lemmas[0].antonyms()`.  `lemmas[0]` raises an uncaught `IndexError`
when the lemma list is empty, hence the `Option`. -/
def synsetContrib (s : Synset) : Option (List Synset) :=
  s.lemmas.head?.map fun lem0 =>
    [s] ++ s.hypernyms ++ s.hyponyms ++ s.member_holonyms ++ lem0

/-- `i.name.split('.')[0]` (line 144): the prefix of the name before the first
dot. -/
def nameBeforeDot (s : String) : String :=
  ⟨s.data.takeWhile (fun c => c ≠ '.')⟩

/-- `i.replace('_', ' ')` (line 149) for the single characters involved. -/
def underscoreToSpace (s : String) : String :=
  ⟨s.data.map (fun c => if c = '_' then ' ' else c)⟩

/-- Ranking relation of `_popularity_contest`: compare string lengths. -/
def lenLE (a b : String) : Prop :=
  a.length ≤ b.length

instance : DecidableRel lenLE := fun a b => Nat.decLe a.length b.length

instance : IsTotal String lenLE := ⟨fun a b => Nat.le_total a.length b.length⟩

instance : IsTrans String lenLE := ⟨fun _ _ _ => Nat.le_trans⟩

/-- `wordnet._popularity_contest` (lines 164-177): stable sort ascending by
string length (`list.sort` with `cmp(len i, len j)`). -/
def popularity_contest (result : List String) : List String :=
  List.insertionSort lenLE result

/-- `wordnet._search_wn` (lines 101-162).  The lexical provider
`wn.synsets` is injected as a function argument (it is an external
collaborator, read-only and pure, called twice with the same word).
`wordnet_results` is the configured `self._wordnet_results` (default 5).
Returns `none` when the uncaught `synset.lemmas[0]` `IndexError` fires. -/
def search_wn (provider : String → List Synset) (wordnet_results : Nat)
    (word : String) : Option (List String) :=
  if word = "" then some []
  else if pyIsDigit word then some []
  else
    let sibling := sibling_hyponyms (provider word)
    let synset_list := provider word
    match synset_list.mapM synsetContrib with
    | none => none
    | some contribs =>
      let result := sibling ++ contribs.flatten
      let result := result.map (fun i => nameBeforeDot i.name)
      let result := result.map underscoreToSpace
      -- `result = list(set(result))`: CPython set iteration order is
      -- unspecified; modelled as an order-normalising deduplication.
      let result := result.dedup
      -- `if word in result: result.remove(word)`: remove the (unique) occurrence.
      let result := result.erase word
      let result := popularity_contest result
      some (result.take wordnet_results)

/-- `wordnet._search_wn` with the optional sibling traversal (lines 124-127)
removed: only the per-sense traversals contribute.  Comparison target for the
claim that a failing sibling traversal discards only its own contribution. -/
def search_wn_no_sibling (provider : String → List Synset) (wordnet_results : Nat)
    (word : String) : Option (List String) :=
  if word = "" then some []
  else if pyIsDigit word then some []
  else
    let synset_list := provider word
    match synset_list.mapM synsetContrib with
    | none => none
    | some contribs =>
      let result := ([] : List Synset) ++ contribs.flatten
      let result := result.map (fun i => nameBeforeDot i.name)
      let result := result.map underscoreToSpace
      let result := result.dedup
      let result := result.erase word
      let result := popularity_contest result
      some (result.take wordnet_results)

/-- `wordnet._generate_URL_from_wn_result`, branch `analyzed_variable is None`
(lines 211-234), restricted to the filename computation: `fname.split('.')`,
`name`/`extension` selection, and `fname.replace(name, set_item)` for each
candidate.  Returns the list of produced filenames in candidate order. -/
def generate_fname_results (fname : String) (result_set : List String) :
    List String :=
  let splitted_fname := splitOnChar '.' fname.data
  let name : List Char :=
    match splitted_fname with
    | [n, _ext] => n
    | parts => List.intercalate ['.'] parts.dropLast
  result_set.map (fun set_item => ⟨pyReplace fname.data name set_item.data⟩)

/-- `wordnet._get_filename` (lines 191-197): `fname.replace('.' + ext, '')`. -/
def get_filename (fname ext : String) : String :=
  ⟨pyReplace fname.data ('.' :: ext.data) []⟩

/-! ## `plugins/audit/global_redirect.py`

The response model carries what the classifier reads: the header list (name,
value), the body, and the result of the external document-parser collaborator
(`dpCache.dpc.getDocumentParserFor(response).getMetaRedir()`), where `none`
models the `w3afException` "no suitable parser" case caught by
`_meta_redirect`. -/

structure HTTPResponse : Type where
  headers : List (String × String)
  body : String
  metaRedirs : Option (List String)
deriving DecidableEq

/-- `global_redirect.TEST_URLS` (lines 40-41). -/
def TEST_URLS : List String :=
  ["http://www.w3af.org/", "//w3af.org"]

/-- ASCII lowercasing of one character (the header names and regex literals
involved are ASCII; `String.toLower` agrees on them but is opaque to kernel
reduction, so a first-principles version is used). -/
def lowerChar (c : Char) : Char :=
  if 'A' ≤ c ∧ c ≤ 'Z' then Char.ofNat (c.toNat + 32) else c

/-- `response.getLowerCaseHeaders()`: header names lowercased. -/
def lowerHeaders (hs : List (String × String)) : List (String × String) :=
  hs.map (fun p => (⟨p.1.data.map lowerChar⟩, p.2))

/-- Dictionary lookup on the lowercased header list; a Python `dict` built
from a sequence keeps the last value for a repeated key. -/
def headerLookup (hs : List (String × String)) (name : String) : Option String :=
  (hs.reverse.find? (fun p => p.1 = name)).map Prod.snd

/-- `global_redirect._30x_code_redirect` (lines 100-112): a `location` or
`uri` header whose value starts with one of the test URLs. -/
def code_redirect_30x (lheaders : List (String × String)) : Bool :=
  ["location", "uri"].any fun header_name =>
    match headerLookup lheaders header_name with
    | some header_value => TEST_URLS.any (fun t => t.data.isPrefixOf header_value.data)
    | none => false

/-- Split a character list at the first occurrence of `sep`
(Python `s.split(sep, 1)` yielding two parts exactly when `sep` occurs). -/
def splitOnceAt (sep : Char) : List Char → Option (List Char × List Char)
  | [] => none
  | c :: rest =>
    if c = sep then some ([], rest)
    else (splitOnceAt sep rest).map (fun p => (c :: p.1, p.2))

/-- `global_redirect._refresh_redirect` (lines 114-129): a `refresh` header of
the form `<something>=<url>` whose url part starts with a test URL. -/
def refresh_redirect (lheaders : List (String × String)) : Bool :=
  match headerLookup lheaders "refresh" with
  | none => false
  | some refresh =>
    match splitOnceAt '=' refresh.data with
    | none => false
    | some (_, url) => TEST_URLS.any (fun t => t.data.isPrefixOf url)

/-- Case-insensitive prefix test (`re.IGNORECASE`, ASCII lowering). -/
def ciIsPrefixOf : List Char → List Char → Bool
  | [], _ => true
  | _ :: _, [] => false
  | p :: ps, c :: cs => (lowerChar p = lowerChar c) && ciIsPrefixOf ps cs

/-- Drop a case-insensitive literal from the front, returning the remainder. -/
def ciStripLit (pat s : List Char) : Option (List Char) :=
  if ciIsPrefixOf pat s then some (s.drop pat.length) else none

/-- The `re.match` of `_meta_redirect` with pattern `'.*?;URL=(.*)'`
(IGNORECASE, DOTALL): the lazy `.*?` stops at the first `;URL=` occurrence
(case-insensitive) and the greedy group takes everything after it. -/
def meta_url_group : List Char → Option (List Char)
  | [] => none
  | c :: rest =>
    match ciStripLit [';', 'u', 'r', 'l', '='] (c :: rest) with
    | some tail => some tail
    | none => meta_url_group rest

/-- `global_redirect._meta_redirect` (lines 131-149): parser failure is "no
signal"; otherwise any meta-refresh directive whose `;URL=`-extracted target
starts with a test URL. -/
def meta_redirect (metaRedirs : Option (List String)) : Bool :=
  match metaRedirs with
  | none => false
  | some redirs =>
    redirs.any fun redir =>
      match meta_url_group redir.data with
      | some url => TEST_URLS.any (fun t => t.data.isPrefixOf url)
      | none => false

/-! Script-block extraction: the compiled pattern
`'< *?script.*?>(.*?)< *?/ *?script *?>'` with IGNORECASE and DOTALL, used via
`re.search` (leftmost match only).  The lazy space runs sit before fixed
literals, so each is forced to the actual run of spaces; the lazy `.*?>`
stops at the first `>`, and the lazy capture stops at the first position
where the closing-tag pattern matches. -/

def scriptLit : List Char := ['s', 'c', 'r', 'i', 'p', 't']

/-- Match `< *?script` at the head, returning the remainder. -/
def stripOpenScript (s : List Char) : Option (List Char) :=
  match s with
  | '<' :: rest => ciStripLit scriptLit (rest.dropWhile (fun c => c = ' '))
  | _ => none

/-- `.*?>`: drop through the first `>` (DOTALL: newlines included). -/
def afterGt : List Char → Option (List Char)
  | [] => none
  | c :: rest => if c = '>' then some rest else afterGt rest

/-- Does `< *?/ *?script *?>` match at the head? -/
def isCloseScriptAt (s : List Char) : Bool :=
  match s with
  | '<' :: rest =>
    match (rest.dropWhile (fun c => c = ' ')) with
    | '/' :: r2 =>
      match ciStripLit scriptLit (r2.dropWhile (fun c => c = ' ')) with
      | some r3 => (r3.dropWhile (fun c => c = ' ')).head? = some '>'
      | none => false
    | _ => false
  | _ => false

/-- `(.*?)` up to the first closing-tag occurrence: the captured group. -/
def captureToClose : List Char → Option (List Char)
  | [] => none
  | c :: rest =>
    if isCloseScriptAt (c :: rest) then some []
    else (captureToClose rest).map (fun l => c :: l)

/-- Whole script pattern anchored at the head of `s`. -/
def matchScriptAt (s : List Char) : Option (List Char) :=
  (stripOpenScript s).bind fun r => (afterGt r).bind captureToClose

/-- `self._script_re.search(body)` followed by `res.groups()`: the captured
group of the leftmost match, if any. -/
def script_re_search : List Char → Option (List Char)
  | [] => none
  | c :: rest =>
    match matchScriptAt (c :: rest) with
    | some cap => some cap
    | none => script_re_search rest

/-- Prefix test for the inline statement pattern, where an unescaped `.`
in the pattern matches any character (the TEST_URLS are inserted into the
regex verbatim, so their dots are wildcards); case-sensitive (no flags). -/
def patIsPrefixOf : List Char → List Char → Bool
  | [], _ => true
  | _ :: _, [] => false
  | p :: ps, c :: cs => (p = '.' || p = c) && patIsPrefixOf ps cs

/-- Does the pattern occur anywhere in `s`? -/
def containsPat (pat : List Char) (s : List Char) : Bool :=
  match s with
  | [] => patIsPrefixOf pat []
  | _ :: rest => patIsPrefixOf pat s || containsPat pat rest

/-- The URL alternation `(http://www.w3af.org/|//w3af.org)` as inserted into
the statement regex (dots unescaped). -/
def js_url_patterns : List (List Char) :=
  TEST_URLS.map String.data

/-- `re.search('(window\.location|location\.).*(<urls>)', line)`: some
occurrence of `window.location` or `location.` (escaped dots, literal)
followed anywhere later by an occurrence of one of the test-URL patterns. -/
def jsLineMatches (line : List Char) : Bool :=
  match line with
  | [] => false
  | _ :: rest =>
    (match ciJsAltAt line with
     | some tail => js_url_patterns.any (fun u => containsPat u tail)
     | none => false) || jsLineMatches rest
where
  /-- The alternation at the head of `l` (case-sensitive, dots literal),
  returning the remainder after the matched alternative. -/
  ciJsAltAt (l : List Char) : Option (List Char) :=
    if ("window.location".data).isPrefixOf l then
      some (l.drop 15)
    else if ("location.".data).isPrefixOf l then
      some (l.drop 9)
    else none

/-- `global_redirect._javascript_redirect` (lines 151-173): take the captured
group of the first `<script>` block, split it on newlines then on `;`, and
test each statement. -/
def javascript_redirect (body : String) : Bool :=
  match script_re_search body.data with
  | none => false
  | some script_code =>
    let code := (splitOnChar '\n' script_code).flatMap (splitOnChar ';')
    code.any jsLineMatches

/-- `global_redirect._find_redirect` (lines 85-98).  The Python `or`-chain
short-circuits on the first true signal.  Its final disjunct calls
`self._http_equiv_redirect(response)`: no method of that name is defined in
the class, and the spec's account of the audit-plugin base class (an external
collaborator) has no such signal either — it lists exactly the four signals
above and "No signal matched — false".  Attribute lookup therefore raises
`AttributeError` whenever evaluation reaches the last disjunct, modelled as
`Except.error`. -/
def find_redirect (response : HTTPResponse) : Except String Bool :=
  let lheaders := lowerHeaders response.headers
  if code_redirect_30x lheaders then Except.ok true
  else if refresh_redirect lheaders then Except.ok true
  else if meta_redirect response.metaRedirs then Except.ok true
  else if javascript_redirect response.body then Except.ok true
  else Except.error "AttributeError: global_redirect instance has no attribute _http_equiv_redirect"

/-! ## `plugins/crawl/wordnet.py` — `_check_existance` (lines 63-73)

The 404-detection heuristic `is_404` is an external collaborator and is taken
as a function argument.  `relative_distance_lt` lives in
`core.controllers.misc.levenshtein`, which is code of this repository outside
`src/`; it is modelled from the spec below. -/

/-- Levenshtein edit distance between character lists. -/
def levDist : List Char → List Char → Nat
  | [], ys => ys.length
  | x :: xs, [] => (x :: xs).length
  | x :: xs, y :: ys =>
    if x = y then levDist xs ys
    else 1 + min (levDist xs (y :: ys)) (min (levDist (x :: xs) ys) (levDist xs ys))
termination_by a b => a.length + b.length
decreasing_by all_goals simp only [List.length_cons]; omega

/-- Modelled from the spec: `relative_distance` of
`core.controllers.misc.levenshtein` (not under `src/`), described as the
"normalized edit-distance-based similarity between baseline body and candidate
body"; normalized to `[0,1]` with value `1` for identical strings (division by
zero for two empty strings yields `0` in `ℚ`, so the value is still `1`
there). -/
def relative_distance (a b : String) : ℚ :=
  1 - (levDist a.data b.data : ℚ) / (max a.length b.length : ℚ)

/-- Modelled from the spec: `relative_distance_lt(a, b, ratio)` of
`core.controllers.misc.levenshtein` (not under `src/`): true iff the
normalized similarity is strictly below `ratio`. -/
def relative_distance_lt (a b : String) (ratio : ℚ) : Bool :=
  relative_distance a b < ratio

/-- `wordnet._check_existance` (lines 63-73), reduced to its verdict: the
candidate response is reported as a new resource iff it is not a 404 (by the
injected collaborator) and the body similarity is below `0.85`. -/
def check_existance (is404 : HTTPResponse → Bool)
    (original_response response : HTTPResponse) : Bool :=
  !is404 response
    && relative_distance_lt original_response.body response.body (85 / 100)

/-! ## `plugins/infrastructure/hmap.py` — `discover` (lines 42-98) -/

/-- The mutable plugin state: `self._run_hmap`, `self._exec`, `self._genFpF`. -/
structure HmapState : Type where
  run_hmap : Bool
  exec : Bool
  genFpF : Bool
deriving DecidableEq

/-- `hmap.__init__` (lines 42-50). -/
def hmap_init : HmapState :=
  { run_hmap := false, exec := true, genFpF := false }

/-- What one `discover` call did. -/
inductive DiscoverOutcome : Type where
  | ranFingerprint
  | didNothing
  | raisedRunOnce
deriving DecidableEq

/-- `hmap.discover` (lines 52-98) as a state transition, abstracting the
external fingerprinting routine `originalHmap.testServer` (its exceptions are
caught in place and do not affect the control flags): `raisedRunOnce` models
`raise w3afRunOnce()`, `ranFingerprint` the branch that invokes `testServer`,
and `didNothing` the branch that only clears `self._exec`. -/
def hmap_discover (s : HmapState) : HmapState × DiscoverOutcome :=
  if !s.exec then (s, .raisedRunOnce)
  else
    let s1 := if s.run_hmap then { s with exec := false } else s
    if !s1.run_hmap then ({ s1 with run_hmap := true }, .ranFingerprint)
    else (s1, .didNothing)

/-- The plugin state before the `(n+1)`-st `discover` call of a sequence of
calls on a single instance. -/
def hmap_state_after : Nat → HmapState
  | 0 => hmap_init
  | n + 1 => (hmap_discover (hmap_state_after n)).1

/-- The outcome of the `(k+1)`-st `discover` call (0-based index `k`). -/
def hmap_outcome (k : Nat) : DiscoverOutcome :=
  (hmap_discover (hmap_state_after k)).2

/-! ## `plugins/evasion/reversed_slashes.py` — `modifyRequest` (lines 41-83)

`url_object` instances are mutable Python objects; `modifyRequest` calls
`request.url_object.copy()` and mutates only the copy with `setPath`.  To make
the no-mutation claim observable, URL objects live in an explicit store and
requests hold references into it. -/

structure url_object : Type where
  scheme : String
  host : String
  path : String
deriving DecidableEq

structure UrlStore : Type where
  objs : List url_object
deriving DecidableEq

def emptyUrl : url_object := { scheme := "", host := "", path := "" }

/-- Dereference a URL object. -/
def getUrl (st : UrlStore) (r : Nat) : url_object :=
  st.objs.getD r emptyUrl

/-- `url_object.copy()`: allocate a fresh object with the same value. -/
def url_copy (st : UrlStore) (r : Nat) : UrlStore × Nat :=
  ({ objs := st.objs ++ [getUrl st r] }, st.objs.length)

/-- `url_object.setPath(p)`: in-place mutation of the referenced object. -/
def url_setPath (st : UrlStore) (r : Nat) (p : String) : UrlStore :=
  { objs := st.objs.set r { getUrl st r with path := p } }

structure EvasionHTTPRequest : Type where
  url_ref : Nat
  data : String
  headers : List (String × String)
  origin_req_host : String
deriving DecidableEq

/-- `path.replace('/', '\\')`: every slash becomes a backslash. -/
def slashesToBack (l : List Char) : List Char :=
  l.map (fun c => if c = '/' then '\\' else c)

/-- `path.replace('\\', '/', 1)`: only the first backslash becomes a slash. -/
def firstBackToSlash : List Char → List Char
  | [] => []
  | c :: rest => if c = '\\' then '/' :: rest else c :: firstBackToSlash rest

/-- The path mangling of `modifyRequest` (line 75). -/
def reversed_path (path : String) : String :=
  ⟨firstBackToSlash (slashesToBack path.data)⟩

/-- `reversed_slashes.modifyRequest` (lines 41-83): read the path, mangle it,
copy the URL object, set the path on the copy, and build a new request around
the copy.  Returns the updated store and the new request. -/
def modifyRequest (st : UrlStore) (request : EvasionHTTPRequest) :
    UrlStore × EvasionHTTPRequest :=
  let path := (getUrl st request.url_ref).path
  let path := reversed_path path
  let copied := url_copy st request.url_ref
  let st1 := url_setPath copied.1 copied.2 path
  let new_req : EvasionHTTPRequest :=
    { url_ref := copied.2
      data := request.data
      headers := request.headers
      origin_req_host := request.origin_req_host }
  (st1, new_req)

/-- The transformation asserted by the claim, following its words: "the
original path with every slash except the first replaced by a backslash".
Comparison target only. -/
def claim_path_aux (seenSlash : Bool) : List Char → List Char
  | [] => []
  | c :: rest =>
    if c = '/' then
      if seenSlash then '\\' :: claim_path_aux true rest
      else '/' :: claim_path_aux true rest
    else c :: claim_path_aux seenSlash rest

/-- Comparison target for the `reversed_slashes` claim. -/
def claim_path (path : String) : String :=
  ⟨claim_path_aux false path.data⟩

/-! ## Helper lemmas -/

lemma nodup_erase_of_nodup {α : Type} [DecidableEq α] {l : List α} (h : l.Nodup) (a : α) :
    (l.erase a).Nodup :=
  (List.erase_sublist a l).nodup h

lemma not_mem_erase_self {α : Type} [DecidableEq α] {l : List α} (h : l.Nodup) (a : α) :
    a ∉ l.erase a := by
  induction l with
  | nil => simp
  | cons b t ih =>
    rw [List.erase_cons]
    split
    · next hba =>
      obtain rfl : b = a := by simpa using hba
      exact (List.nodup_cons.mp h).1
    · next hba =>
      intro hmem
      rcases List.mem_cons.mp hmem with h1 | h2
      · exact hba (by simp [h1])
      · exact ih (List.nodup_cons.mp h).2 h2

/-- The dedup/remove/sort/truncate tail of `_search_wn` (lines 151-160)
yields a list that omits the seed word, has no duplicates, has at most
`n` entries and is sorted ascending by length. -/
lemma post_core (word : String) (names : List String) (n : Nat) :
    word ∉ (popularity_contest ((names.dedup).erase word)).take n
    ∧ ((popularity_contest ((names.dedup).erase word)).take n).Nodup
    ∧ ((popularity_contest ((names.dedup).erase word)).take n).length ≤ n
    ∧ ((popularity_contest ((names.dedup).erase word)).take n).Sorted lenLE := by
  have hnd : (names.dedup).Nodup := List.nodup_dedup names
  have hne : ((names.dedup).erase word).Nodup := nodup_erase_of_nodup hnd word
  have hnm : word ∉ (names.dedup).erase word := not_mem_erase_self hnd word
  have hperm : List.Perm (popularity_contest ((names.dedup).erase word))
      ((names.dedup).erase word) :=
    List.perm_insertionSort lenLE _
  refine ⟨?_, ?_, ?_, ?_⟩
  · intro hmem
    exact hnm (hperm.mem_iff.mp ((List.take_sublist n _).subset hmem))
  · exact ((List.take_sublist n _).nodup) (hperm.nodup_iff.mpr hne)
  · simp
  · exact List.Pairwise.sublist (List.take_sublist n _) (List.sorted_insertionSort lenLE _)

/-- Inversion: any list actually returned by `search_wn` is the dedup/erase/
sort/take postprocessing of some intermediate name list, or is empty. -/
lemma search_wn_inv (provider : String → List Synset) (n : Nat) (word : String)
    (l : List String) (h : search_wn provider n word = some l) :
    l = [] ∨ ∃ names : List String,
      l = (popularity_contest ((names.dedup).erase word)).take n := by
  simp only [search_wn] at h
  split at h
  · exact Or.inl (Option.some.inj h).symm
  · split at h
    · exact Or.inl (Option.some.inj h).symm
    · split at h
      · exact absurd h (by simp)
      · exact Or.inr ⟨_, (Option.some.inj h).symm⟩

/-! ## Claims C3, C4, C8 — the candidate expander -/

/-- C3: For every input word and every output of the injected lexical provider
(including provider outputs containing duplicate or self-referential senses),
the candidate list returned by `wordnet._search_wn` never contains the input
word itself and never contains two equal strings (case-sensitive identity). -/
theorem search_wn_no_seed_no_dup (provider : String → List Synset) (n : Nat)
    (word : String) (l : List String) (h : search_wn provider n word = some l) :
    word ∉ l ∧ l.Nodup := by
  rcases search_wn_inv provider n word l h with rfl | ⟨names, rfl⟩
  · simp
  · exact ⟨(post_core word names n).1, (post_core word names n).2.1⟩

/-- Example provider output with duplicated senses and a sense whose surface
form is the seed word itself. -/
def wn_syn_red : Synset := .mk "red.n.01" [] [] [] [[]]

def wn_syn_dog : Synset := .mk "big_dog.n.01" [] [] [] [[]]

def wn_syn_blue2 : Synset := .mk "blue.s.02" [] [] [] [[]]

def wn_syn_blue : Synset :=
  .mk "blue.n.01" [wn_syn_red] [wn_syn_dog, wn_syn_red, wn_syn_blue2] [] [[wn_syn_red]]

def wn_example_provider : String → List Synset := fun _ => [wn_syn_blue, wn_syn_blue]

/-- Witness for C3 at a provider that returns duplicate senses and a sense
named after the seed word. -/
theorem search_wn_no_seed_no_dup_witness :
    "blue" ∉ (["red", "big dog"] : List String) ∧ (["red", "big dog"] : List String).Nodup :=
  search_wn_no_seed_no_dup wn_example_provider 5 "blue" ["red", "big dog"] (by decide)

/-- C4: For every input word and provider output, the candidate list returned
by `wordnet._search_wn` contains at most `wordnet_results` items (the
configured `maxResults`, default 5 — never more regardless of provider
fan-out) and is ordered ascending by string length. -/
theorem search_wn_bounded_sorted (provider : String → List Synset) (n : Nat)
    (word : String) (l : List String) (h : search_wn provider n word = some l) :
    l.length ≤ n ∧ l.Sorted lenLE := by
  rcases search_wn_inv provider n word l h with rfl | ⟨names, rfl⟩
  · simp [List.Sorted]
  · exact ⟨(post_core word names n).2.2.1, (post_core word names n).2.2.2⟩

/-- Witness for C4 with `maxResults = 5`. -/
theorem search_wn_bounded_sorted_witness :
    (["red", "big dog"] : List String).length ≤ 5
    ∧ (["red", "big dog"] : List String).Sorted lenLE :=
  search_wn_bounded_sorted wn_example_provider 5 "blue" ["red", "big dog"] (by decide)

/-- C8: If the optional sibling traversal (hyponyms of the hypernym of the
first sense, lines 124-127) fails — the word has no senses, or the first
sense has no hypernyms — `_search_wn` does not raise: the `except: pass`
discards only that optional contribution and the result is exactly the one
computed from the per-sense traversals alone. -/
theorem search_wn_sibling_failure_discarded (provider : String → List Synset)
    (n : Nat) (word : String)
    (h : provider word = []
      ∨ ∃ s rest, provider word = s :: rest ∧ s.hypernyms = []) :
    search_wn provider n word = search_wn_no_sibling provider n word := by
  have hsib : sibling_hyponyms (provider word) = [] := by
    rcases h with h | ⟨s, rest, he, hh⟩
    · rw [h]; rfl
    · rw [he]; simp [sibling_hyponyms, hh]
  simp only [search_wn, search_wn_no_sibling, hsib]

/-- A provider whose first (and only) sense has no hypernyms, so the sibling
traversal raises `IndexError` inside the `try`. -/
def wn_no_hyper : Synset := .mk "x.n.01" [] [] [] [[]]

def wn_nohyper_provider : String → List Synset := fun _ => [wn_no_hyper]

/-- Witness for C8: the sibling traversal fails (first sense has no
hypernyms) and the expander result equals the per-sense-only result. -/
theorem search_wn_sibling_failure_discarded_witness :
    search_wn wn_nohyper_provider 5 "word" = search_wn_no_sibling wn_nohyper_provider 5 "word" :=
  search_wn_sibling_failure_discarded wn_nohyper_provider 5 "word"
    (Or.inr ⟨wn_no_hyper, [], rfl, rfl⟩)

/-! ## Claim C7 — the discovery classifier -/

lemma levDist_self (l : List Char) : levDist l l = 0 := by
  induction l with
  | nil => simp [levDist]
  | cons c t ih => simp [levDist, ih]

lemma relative_distance_self (a : String) : relative_distance a a = 1 := by
  simp [relative_distance, levDist_self]

lemma relative_distance_lt_self (a : String) :
    relative_distance_lt a a (85 / 100) = false := by
  simp only [relative_distance_lt, relative_distance_self]
  norm_num

/-- C7: `wordnet._check_existance` reports a candidate response as a new
resource iff the 404-detection collaborator says it is not a not-found
response and the normalized body similarity is below the `0.85` threshold; in
particular a candidate whose body is identical to the baseline is never
reported (regardless of 404 status), and a candidate flagged as 404 is never
reported even when the bodies differ entirely. -/
theorem check_existance_spec (is404 : HTTPResponse → Bool)
    (original_response response : HTTPResponse) :
    (check_existance is404 original_response response = true ↔
      (is404 response = false
        ∧ relative_distance_lt original_response.body response.body (85 / 100) = true))
    ∧ (original_response.body = response.body →
        check_existance is404 original_response response = false)
    ∧ (is404 response = true →
        check_existance is404 original_response response = false) := by
  refine ⟨?_, ?_, ?_⟩
  · simp [check_existance, Bool.and_eq_true, Bool.not_eq_true']
  · intro hbody
    simp [check_existance, hbody, relative_distance_lt_self]
  · intro h404
    simp [check_existance, h404]

/-- Witness for C7: identical bodies are never reported. -/
theorem check_existance_spec_witness :
    check_existance (fun _ => false)
      { headers := [], body := "index page", metaRedirs := none }
      { headers := [], body := "index page", metaRedirs := none } = false :=
  (check_existance_spec (fun _ => false)
      { headers := [], body := "index page", metaRedirs := none }
      { headers := [], body := "index page", metaRedirs := none }).2.1 rfl

/-! ## Claim C9 — hmap runs the fingerprint at most once -/

lemma hmap_state_after_two_add (m : Nat) :
    hmap_state_after (2 + m) = { run_hmap := true, exec := false, genFpF := false } := by
  induction m with
  | zero => rfl
  | succ k ih =>
    have : 2 + (k + 1) = (2 + k) + 1 := by omega
    rw [this, hmap_state_after, ih]
    rfl

lemma hmap_outcome_ran_eq_zero (j : Nat) (h : hmap_outcome j = .ranFingerprint) : j = 0 := by
  match j with
  | 0 => rfl
  | 1 => exact absurd h (by decide)
  | k + 2 =>
    rw [hmap_outcome, show k + 2 = 2 + k by omega, hmap_state_after_two_add k] at h
    exact absurd h (by decide)

/-- C9: over any sequence of `discover` calls on a single `hmap` plugin
instance, the external fingerprinting routine `testServer` is executed at
most once: the first call runs it, the second call runs nothing and disables
the plugin (`self._exec = False`), and every call from the third onward
raises `w3afRunOnce` without running the fingerprint. -/
theorem hmap_discover_runs_once :
    hmap_outcome 0 = .ranFingerprint
    ∧ hmap_outcome 1 = .didNothing
    ∧ (hmap_state_after 2).exec = false
    ∧ (∀ k, 2 ≤ k → hmap_outcome k = .raisedRunOnce)
    ∧ (∀ j k, hmap_outcome j = .ranFingerprint →
        hmap_outcome k = .ranFingerprint → j = k) := by
  refine ⟨rfl, rfl, rfl, ?_, ?_⟩
  · intro k hk
    obtain ⟨m, rfl⟩ : ∃ m, k = 2 + m := ⟨k - 2, by omega⟩
    rw [hmap_outcome, hmap_state_after_two_add m]
    rfl
  · intro j k hj hk
    rw [hmap_outcome_ran_eq_zero j hj, hmap_outcome_ran_eq_zero k hk]

/-- Witness for C9: the eighth call raises `w3afRunOnce`. -/
theorem hmap_discover_runs_once_witness : hmap_outcome 7 = .raisedRunOnce :=
  hmap_discover_runs_once.2.2.2.1 7 (by omega)

/-! ## Claim C1 — no signal matched

The claim says `_find_redirect` returns false; the code instead reaches the
fifth disjunct `self._http_equiv_redirect(response)` and raises
`AttributeError` (no such method exists). -/

/-- C1 failing input: a response matching none of the four signals makes
`_find_redirect` raise `AttributeError` instead of returning false. -/
theorem find_redirect_no_signal_raises :
    find_redirect { headers := [], body := "", metaRedirs := some [] }
      = Except.error
          "AttributeError: global_redirect instance has no attribute _http_equiv_redirect" := by
  rfl

/-! ## Claim C5 — status-line redirect signal -/

/-- C5: a `location` header value prefixed by a test URL makes the classifier
return true — the `or`-chain short-circuits before the `AttributeError`-raising
last disjunct, so no later signal is evaluated (first conjunct); a `location`
value not prefixed by any test URL does not trigger signal 1 (second
conjunct); but with no other signal the classifier then raises
`AttributeError` instead of returning false as claimed (third conjunct: the
failing input). -/
theorem find_redirect_location_signal :
    find_redirect
        { headers := [("Location", "http://www.w3af.org/evil")], body := "",
          metaRedirs := some [] } = Except.ok true
    ∧ code_redirect_30x (lowerHeaders [("Location", "http://other.org/")]) = false
    ∧ find_redirect
        { headers := [("Location", "http://other.org/")], body := "",
          metaRedirs := some [] }
      = Except.error
          "AttributeError: global_redirect instance has no attribute _http_equiv_redirect" := by
  refine ⟨by rfl, by rfl, by rfl⟩

/-! ## Claim C2 — path-filename mutation

The claim expects filename `"report.v2.pdf"` with candidate `"summary"` to
produce `"summary.v2.pdf"` and extension-less `"report"` to produce
`"summary"`.  The code computes `name = '.'.join(parts[:-1])` for any split
arity other than 2 — `"report.v2"` in the first case (so the replacement
yields `"summary.pdf"`), and the empty string in the second, so
`fname.replace('', candidate)` interleaves the candidate around every
character of the original filename. -/

/-- C2 failing inputs evaluated: `"report.v2.pdf"` yields `"summary.pdf"`
(not the claimed `"summary.v2.pdf"`), and `"report"` yields the interleaved
string produced by replacing the empty `name` (not the claimed
`"summary"`). -/
theorem generate_fname_results_bug :
    generate_fname_results "report.v2.pdf" ["summary"] = ["summary.pdf"]
    ∧ generate_fname_results "report.v2.pdf" ["summary"] ≠ ["summary.v2.pdf"]
    ∧ generate_fname_results "report" ["summary"]
      = ["summaryrsummaryesummarypsummaryosummaryrsummarytsummary"]
    ∧ generate_fname_results "report" ["summary"] ≠ ["summary"] := by
  refine ⟨by decide, by decide, by decide, by decide⟩

/-! ## Claim C6 — script-based redirect

`_javascript_redirect` uses `re.search`, so only the **first**
`<script>...</script>` block of the body is examined; a matching statement in
a later block is not seen.  The claim as stated (any block) therefore fails;
the amended claim restricts it to the first block. -/

/-- C6 counterexample: the two-block body contains a `<script>` block whose
statement matches (the second conjunct shows that very block, alone, makes
the classifier return true), yet the classifier returns false on the
two-block body because only the first block is scanned. -/
theorem javascript_redirect_second_block_missed :
    javascript_redirect
        "<script>var x = 1</script><script>window.location = \"//w3af.org/abc\"</script>"
      = false
    ∧ javascript_redirect "<script>window.location = \"//w3af.org/abc\"</script>" = true := by
  refine ⟨by decide, by decide⟩

/-- C6 (amended): for every response body whose **first** `<script>` block
contains a statement (split first on newlines then on `;`) containing
`window.location` or `location.` followed eventually by a test URL, the
classifier returns true; a body containing the redirect text only outside
`<script>` tags (e.g. in an HTML comment), on which the script regex finds no
block, yields false. -/
theorem javascript_redirect_first_block :
    (∀ (body : String) (cap : List Char),
      script_re_search body.data = some cap →
      ((splitOnChar '\n' cap).flatMap (splitOnChar ';')).any jsLineMatches = true →
      javascript_redirect body = true)
    ∧ (∀ (body : String),
      script_re_search body.data = none →
      javascript_redirect body = false)
    ∧ javascript_redirect "<!-- window.location = \"//w3af.org/abc\" -->" = false := by
  refine ⟨?_, ?_, by decide⟩
  · intro body cap h hm
    simp only [javascript_redirect, h, hm]
  · intro body h
    simp only [javascript_redirect, h]

/-- Witness for C6 (amended): a single-block body with a matching statement. -/
theorem javascript_redirect_first_block_witness :
    javascript_redirect "<script>window.location = \"//w3af.org/abc\";</script>" = true :=
  javascript_redirect_first_block.1
    "<script>window.location = \"//w3af.org/abc\";</script>"
    ("window.location = \"//w3af.org/abc\";".data)
    (by decide) (by decide)

/-! ## Claim C10 — reversed_slashes -/

lemma getD_append_self {α : Type} (l : List α) (a d : α) :
    (l ++ [a]).getD l.length d = a := by
  induction l with
  | nil => rfl
  | cons x xs ih => simp [ih]

lemma getD_set_append_self {α : Type} (l : List α) (a b d : α) :
    ((l ++ [a]).set l.length b).getD l.length d = b := by
  induction l with
  | nil => rfl
  | cons x xs ih => simp [ih]

lemma getD_set_append_lt {α : Type} (l : List α) (a b d : α) :
    ∀ i, i < l.length → ((l ++ [a]).set l.length b).getD i d = l.getD i d := by
  induction l with
  | nil => intro i h; simp at h
  | cons x xs ih =>
    intro i h
    cases i with
    | zero => rfl
    | succ j =>
      have hj : j < xs.length := by simpa using h
      simpa using ih j hj

lemma claim_path_aux_true_eq (l : List Char) (h : ∀ c ∈ l, c ≠ '\\') :
    claim_path_aux true l = slashesToBack l := by
  induction l with
  | nil => rfl
  | cons c rest ih =>
    have hrest : ∀ x ∈ rest, x ≠ '\\' := fun x hx => h x (List.mem_cons_of_mem c hx)
    by_cases hc : c = '/'
    · simp [claim_path_aux, slashesToBack, hc, ih hrest]
    · simp [claim_path_aux, slashesToBack, hc, ih hrest]

/-- On a path without backslashes, the code's replace-all-then-restore-first
composition coincides with the claim's "every slash except the first becomes
a backslash". -/
lemma reversed_eq_claim_of_no_backslash (l : List Char) (h : ∀ c ∈ l, c ≠ '\\') :
    firstBackToSlash (slashesToBack l) = claim_path_aux false l := by
  induction l with
  | nil => rfl
  | cons c rest ih =>
    have hrest : ∀ x ∈ rest, x ≠ '\\' := fun x hx => h x (List.mem_cons_of_mem c hx)
    by_cases hc : c = '/'
    · simp [slashesToBack, firstBackToSlash, claim_path_aux, hc,
        claim_path_aux_true_eq rest hrest]
    · have hcb : c ≠ '\\' := h c (List.mem_cons_self c rest)
      simp [slashesToBack, firstBackToSlash, claim_path_aux, hc, hcb]
      simpa [slashesToBack] using ih hrest

/-- C10 counterexample: on a path already containing a backslash the produced
path is not "the original path with every slash except the first replaced by
a backslash" — the code turns `a\b` (which has no slash at all, so the claim
predicts it unchanged) into `a/b`. -/
theorem modifyRequest_claim_counterexample :
    (getUrl (modifyRequest { objs := [{ scheme := "http", host := "h", path := "a\\b" }] }
          { url_ref := 0, data := "", headers := [], origin_req_host := "h" }).1
        (modifyRequest { objs := [{ scheme := "http", host := "h", path := "a\\b" }] }
          { url_ref := 0, data := "", headers := [], origin_req_host := "h" }).2.url_ref).path
      = "a/b"
    ∧ claim_path "a\\b" = "a\\b"
    ∧ ("a/b" : String) ≠ "a\\b" := by
  refine ⟨by decide, by decide, by decide⟩

/-- C10 (amended): `modifyRequest` leaves the input request's URL object
unchanged (it mutates only the fresh copy) and returns a new request whose
path is the original path with every `/` replaced by `\` and then the first
`\` of that intermediate string replaced back by `/`; when the original path
contains no backslash this equals the claimed "every slash except the first
replaced by a backslash" (leading `/` preserved). -/
theorem modifyRequest_amended (st : UrlStore) (request : EvasionHTTPRequest)
    (href : request.url_ref < st.objs.length) :
    getUrl (modifyRequest st request).1 request.url_ref = getUrl st request.url_ref
    ∧ (getUrl (modifyRequest st request).1 (modifyRequest st request).2.url_ref).path
        = reversed_path (getUrl st request.url_ref).path
    ∧ ((getUrl st request.url_ref).path.data.all (fun c => c != '\\') = true →
        (getUrl (modifyRequest st request).1 (modifyRequest st request).2.url_ref).path
          = claim_path (getUrl st request.url_ref).path) := by
  have hpath : (getUrl (modifyRequest st request).1 (modifyRequest st request).2.url_ref).path
      = reversed_path (getUrl st request.url_ref).path := by
    simp only [modifyRequest, url_copy, url_setPath, getUrl]
    rw [getD_set_append_self]
  refine ⟨?_, hpath, ?_⟩
  · simp only [modifyRequest, url_copy, url_setPath, getUrl]
    rw [getD_set_append_lt st.objs _ _ _ request.url_ref href]
  · intro hnb
    rw [hpath]
    have hall : ∀ c ∈ (getUrl st request.url_ref).path.data, c ≠ '\\' := by
      intro c hc
      exact bne_iff_ne.mp (List.all_eq_true.mp hnb c hc)
    simp only [reversed_path, claim_path]
    exact congrArg String.mk (reversed_eq_claim_of_no_backslash _ hall)

/-- Witness for C10 (amended) on the doctest URL path `/abc/123/def.htm`. -/
theorem modifyRequest_amended_witness :
    (getUrl (modifyRequest
          { objs := [{ scheme := "http", host := "www.w3af.com", path := "/abc/123/def.htm" }] }
          { url_ref := 0, data := "", headers := [], origin_req_host := "www.w3af.com" }).1
        (modifyRequest
          { objs := [{ scheme := "http", host := "www.w3af.com", path := "/abc/123/def.htm" }] }
          { url_ref := 0, data := "", headers := [], origin_req_host := "www.w3af.com" }).2.url_ref).path
      = claim_path "/abc/123/def.htm" :=
  (modifyRequest_amended
      { objs := [{ scheme := "http", host := "www.w3af.com", path := "/abc/123/def.htm" }] }
      { url_ref := 0, data := "", headers := [], origin_req_host := "www.w3af.com" }
      (by decide)).2.2 (by decide)
